import Mathlib

/-!
Verification of the civic-complaint chatbot's two non-trivial components:
the SQL safety validator (`query_executor.py` / `config.py`) and the
analytics / chart-type inference engine (`analytics_output.py`).

The embedding is shallow: query results (`List[Dict[str, Any]]` of JSON
scalars) are modelled as association lists of optional `Value`s, where a
missing key and an explicit `None` both end up as a missing cell after the
`pd.DataFrame` conversion, matching how pandas turns both into `NaN`/`None`.
The scalar domain is restricted to integers and strings (the categories,
counts, titles and statuses the service queries); regex character classes
(`\w`, `\s`) and case conversion are modelled over ASCII, which covers the
SQL keyword set and category names involved.
-/

namespace CivicOne

/-- Scalar JSON value appearing in a result row (ints and strings). -/
inductive Value where
  | int (n : Int)
  | str (s : String)
deriving DecidableEq, Repr

/-- One result row: a Python dict from column name to scalar-or-None. -/
abbrev Row := List (String × Option Value)

/-! ## config.py -/

/-- `CATEGORY_MAPPING` from `config.py`: common terms to exact database
category names. -/
def CATEGORY_MAPPING : List (String × String) :=
  [ ( "pothole", "potholes" ),
    ( "garbage", "Garbage" ),
    ( "damaged electrical poles", "DamagedElectricalPoles" ),
    ( "streetlight", "streetlight" ),
    ( "roads", "roads" ),
    ( "waterlogging", "WaterLogging" ),
    ( "fallen trees", "FallenTrees" ),
    ( "other", "other" ) ]

/-- `ALLOWED_CATEGORIES = list(CATEGORY_MAPPING.values())`. -/
def ALLOWED_CATEGORIES : List String := CATEGORY_MAPPING.map Prod.snd

/-! ## Character-level helpers shared by the validator and analytics -/

/-- Python `\s` (ASCII part): the whitespace class used by `re` and
`str.strip`. -/
def pySpace (c : Char) : Bool :=
  c == ' ' || c == '\t' || c == '\n' || c == '\r' || c == '\x0b' || c == '\x0c'

/-- Python regex `\w` (ASCII part): letters, digits and underscore. -/
def isWordChar (c : Char) : Bool := c.isAlphanum || c == '_'

/-- `str.upper()` over ASCII letters. -/
def pyUpper (l : List Char) : List Char := l.map Char.toUpper

/-- `str.lower()` over ASCII letters. -/
def pyLower (l : List Char) : List Char := l.map Char.toLower

/-- `str.strip()`: drop leading and trailing whitespace. -/
def pyStrip (l : List Char) : List Char :=
  ((l.dropWhile pySpace).reverse.dropWhile pySpace).reverse

/-- `a.startswith(b)` on character lists. -/
def listStartsWith : List Char → List Char → Bool
  | _, [] => true
  | [], _ :: _ => false
  | a :: as2, b :: bs => a == b && listStartsWith as2 bs

/-- Python `sub in s`: substring containment. -/
def containsSubstr (s sub : List Char) : Bool :=
  (List.range (s.length + 1)).any (fun i => listStartsWith (s.drop i) sub)

/-! ## SQL comment stripping (`_validate_sql`, lines 66-67)

`re.sub(r'--.*$', '', sql, flags=re.MULTILINE)` removes, on every line,
everything from the first `--` to the end of that line; then
`re.sub(r'/\*.*?\*/', '', ..., flags=re.DOTALL)` removes each non-greedy
block comment, leaving an unclosed `/*` untouched. -/

/-- Cut one line at its first `--`. -/
def cutLine : List Char → List Char
  | [] => []
  | '-' :: '-' :: _ => []
  | c :: rest => c :: cutLine rest

/-- Split into lines at `\n` (the newline itself is a separator). -/
def splitOnNl : List Char → List (List Char)
  | [] => [[]]
  | '\n' :: rest => [] :: splitOnNl rest
  | c :: rest =>
    match splitOnNl rest with
    | [] => [[c]]
    | l :: ls => (c :: l) :: ls

/-- Re-join lines with `\n`. -/
def joinNl : List (List Char) → List Char
  | [] => []
  | l :: ls =>
    match ls with
    | [] => l
    | _ :: _ => l ++ '\n' :: joinNl ls

/-- `re.sub(r'--.*$', '', sql, flags=re.MULTILINE)`. -/
def stripLineComments (l : List Char) : List Char :=
  joinNl ((splitOnNl l).map cutLine)

/-- Scan to just past the first `*/`; `none` when there is no `*/`. -/
def dropToClose : List Char → Option (List Char)
  | [] => none
  | '*' :: '/' :: rest => some rest
  | _ :: rest => dropToClose rest

/-- One fuel-bounded pass removing non-greedy `/* ... */` blocks, continuing
after each removal (as `re.sub` does).  Each step consumes at least one
input character, so fuel = input length + 1 never runs out. -/
def stripBlockGo : Nat → List Char → List Char
  | 0, l => l
  | _ + 1, [] => []
  | fuel + 1, c :: rest =>
    match c, rest with
    | '/', '*' :: rest2 =>
      match dropToClose rest2 with
      | some rest3 => stripBlockGo fuel rest3
      | none => c :: rest
    | _, _ => c :: stripBlockGo fuel rest

/-- `re.sub(r'/\*.*?\*/', '', ..., flags=re.DOTALL)`. -/
def stripBlockComments (l : List Char) : List Char :=
  stripBlockGo (l.length + 1) l

/-- `sql_clean` of `_validate_sql`: line comments stripped, then block
comments. -/
def sqlClean (sql : String) : List Char :=
  stripBlockComments (stripLineComments sql.data)

/-! ## Whole-word keyword search (`_validate_sql`, lines 70-76)

`re.search(r'\b' + keyword + r'\b', sql_upper)`: the keyword occurs at some
position with no word character immediately before or after it. -/

/-- `\bK\b` matches at index `i` of `s`. -/
def wholeWordAt (s k : List Char) (i : Nat) : Bool :=
  listStartsWith (s.drop i) k &&
    (i == 0 || !isWordChar (s.getD (i - 1) ' ')) &&
    (s.length ≤ i + k.length || !isWordChar (s.getD (i + k.length) ' '))

/-- `re.search(r'\bK\b', s)` succeeds somewhere in `s`. -/
def containsWholeWord (s k : List Char) : Bool :=
  (List.range (s.length + 1)).any (fun i => wholeWordAt s k i)

/-- `SupabaseClient.DANGEROUS_KEYWORDS`. -/
def DANGEROUS_KEYWORDS : List String :=
  [ "DROP", "DELETE", "TRUNCATE", "INSERT", "UPDATE",
    "ALTER", "CREATE", "GRANT", "REVOKE", "EXEC",
    "EXECUTE", "PROCEDURE", "FUNCTION" ]

/-- The three `ValueError`s `_validate_sql` can raise. -/
inductive VErr where
  | kw (k : String)
  | notSelect
  | badCat (c : String)
deriving DecidableEq, Repr

/-- The human-readable reason string carried by each rejection. -/
def VErr.reason : VErr → String
  | VErr.kw k => s!"Query contains forbidden keyword: {k}. Only SELECT queries are allowed."
  | VErr.notSelect => "Only SELECT queries are allowed"
  | VErr.badCat c => s!"Query uses a category that is not allowed: {c}"

/-- The keyword loop of `_validate_sql` (lines 70-76): raise on the first
dangerous keyword found as a whole word in the uppercased clean text. -/
def keywordCheck (clean : List Char) : Except VErr Unit :=
  match DANGEROUS_KEYWORDS.find? (fun k => containsWholeWord (pyUpper clean) k.data) with
  | some k => Except.error (VErr.kw k)
  | none => Except.ok ()

def selectKW : List Char := "SELECT".data

/-- Lines 78-79: `sql_clean.strip().upper().startswith("SELECT")`. -/
def selectCheck (clean : List Char) : Except VErr Unit :=
  if listStartsWith (pyUpper (pyStrip clean)) selectKW then Except.ok ()
  else Except.error VErr.notSelect

/-! ## Category-literal extraction (`_validate_sql`, lines 82-86)

`re.findall(r"category\s*=\s*'([^']+)'", sql_clean, flags=re.IGNORECASE)`:
non-overlapping leftmost matches; each match is the word `category`
(case-insensitive), optional whitespace, `=`, optional whitespace, then a
single-quoted non-empty literal captured exactly. -/

def categoryKW : List Char := "category".data

/-- Match a lowercase pattern case-insensitively at the head of the input,
returning the rest. -/
def matchCI : List Char → List Char → Option (List Char)
  | [], rest => some rest
  | _ :: _, [] => none
  | p :: ps, c :: cs => if c.toLower == p then matchCI ps cs else none

/-- Try the category-filter pattern at the head of `l`; on success return
the captured literal and the input left after the match. -/
def matchCategoryAt (l : List Char) : Option (List Char × List Char) :=
  match matchCI categoryKW l with
  | none => none
  | some r1 =>
    match r1.dropWhile pySpace with
    | '=' :: r3 =>
      match r3.dropWhile pySpace with
      | '\'' :: r5 =>
        let lit := r5.takeWhile (fun c => !(c == '\''))
        match r5.drop lit.length with
        | '\'' :: r6 => if lit.isEmpty then none else some (lit, r6)
        | _ => none
      | _ => none
    | _ => none

/-- `re.findall` scan: try each start position left to right, resuming after
the end of every match.  Each step consumes at least one character, so fuel
= input length never runs out. -/
def extractGo : Nat → List Char → List String
  | 0, _ => []
  | _ + 1, [] => []
  | fuel + 1, c :: rest =>
    match matchCategoryAt (c :: rest) with
    | some (lit, r) => String.mk lit :: extractGo fuel r
    | none => extractGo fuel rest

/-- All `category = '<value>'` literals of the clean SQL text, in order. -/
def extractCategories (l : List Char) : List String := extractGo l.length l

/-- Lines 82-86: raise on the first extracted literal not in
`ALLOWED_CATEGORIES`. -/
def categoryCheck (clean : List Char) : Except VErr Unit :=
  match (extractCategories clean).find? (fun c => !(ALLOWED_CATEGORIES.contains c)) with
  | some c => Except.error (VErr.badCat c)
  | none => Except.ok ()

/-- `SupabaseClient._validate_sql`: comment stripping, then the keyword
scan, the SELECT-prefix check and the category allow-list check, raising at
the first failure. -/
def validateSql (sql : String) : Except VErr Unit :=
  match keywordCheck (sqlClean sql) with
  | Except.error e => Except.error e
  | Except.ok _ =>
    match selectCheck (sqlClean sql) with
    | Except.error e => Except.error e
    | Except.ok _ => categoryCheck (sqlClean sql)

/-- Line 48: `sql.strip().rstrip(';')`. -/
def sanitizeSql (sql : String) : String :=
  String.mk (((pyStrip sql.data).reverse.dropWhile (fun c => c == ';')).reverse)

/-- `SupabaseClient.execute_query` up to the remote round trip: it first
runs `_validate_sql` (which raises out of the method), and only then builds
the RPC payload `{'query': sanitized_sql}`.  The `ok` value is the query
string handed to the remote `execute_sql` procedure; `error` means the
method raised before any RPC was issued. -/
def executeQueryRequest (sql : String) : Except VErr String :=
  match validateSql sql with
  | Except.error e => Except.error e
  | Except.ok _ => Except.ok (sanitizeSql sql)

/-! ## pandas DataFrame model (`analytics_output.py`)

`pd.DataFrame(data)` for a list of dicts of scalars: the column set is the
first-seen-order union of the keys; a key missing from a row and an explicit
`None` both become a missing cell (`NaN`).  A column is numeric (`int64` /
`float64`) when it holds at least one integer and nothing but integers and
missing cells; every other column is `object`, i.e. categorical for
`select_dtypes(['object', 'category'])`.  Scalar dicts never produce a
`datetime64` column, so `select_dtypes(['datetime64'])` starts empty. -/

structure DataFrame where
  columns : List String
  rows : List Row
deriving Repr

/-- Cell of a dict row: missing key and `None` collapse to `none`. -/
def lookupCell (r : Row) (c : String) : Option Value :=
  match r.lookup c with
  | some (some v) => some v
  | _ => none

def insertCol (acc : List String) (k : String) : List String :=
  if acc.contains k then acc else acc ++ [k]

/-- First-seen-order union of the row keys. -/
def dfColumns (data : List Row) : List String :=
  data.foldl (fun acc r => r.foldl (fun a kv => insertCol a kv.fst) acc) []

/-- `pd.DataFrame(data)`: rows normalized to the full column set. -/
def toDF (data : List Row) : DataFrame :=
  ⟨dfColumns data, data.map (fun r => (dfColumns data).map (fun c => (c, lookupCell r c)))⟩

/-- The column of cells named `c`. -/
def colValues (df : DataFrame) (c : String) : List (Option Value) :=
  df.rows.map (fun r => lookupCell r c)

def cellInt : Option Value → Bool
  | some (Value.int _) => true
  | _ => false

def cellIntOrNull : Option Value → Bool
  | some (Value.int _) => true
  | none => true
  | _ => false

/-- The column has a numeric (int64/float64) dtype. -/
def colIsNumeric (df : DataFrame) (c : String) : Bool :=
  (colValues df c).any cellInt && (colValues df c).all cellIntOrNull

/-- `df.select_dtypes(include=['number']).columns`. -/
def numColsOf (df : DataFrame) : List String :=
  df.columns.filter (fun c => colIsNumeric df c)

/-- `df.select_dtypes(include=['object', 'category']).columns`. -/
def catColsOf (df : DataFrame) : List String :=
  df.columns.filter (fun c => !(colIsNumeric df c))

/-! ## Chart-type detection (`AnalyticsService._detect_chart_type`)

Lines 74-81 then try to promote string columns to date columns:

```
for col in cat_cols[:]:
    try:
        pd.to_datetime(df[col].head(), errors='coerce')
        if df[col].head().notna().sum() > 0:
            date_cols.append(col)
            cat_cols.remove(col)
    except:
        pass
```

The `pd.to_datetime(..., errors='coerce')` result is discarded (with
`errors='coerce'` it also never raises on scalar data), so the only test
that decides the promotion is `df[col].head().notna().sum() > 0` on the
*original* values: a categorical column moves to `date_cols` exactly when
its first five cells contain at least one non-missing value. -/

/-- `df[col].head().notna().sum() > 0`. -/
def headHasValue (df : DataFrame) (c : String) : Bool :=
  ((colValues df c).take 5).any (fun o => o.isSome)

/-- `date_cols` after the promotion loop (it starts empty). -/
def reclassDateCols (df : DataFrame) : List String :=
  (catColsOf df).filter (fun c => headHasValue df c)

/-- `cat_cols` after the promotion loop. -/
def reclassCatCols (df : DataFrame) : List String :=
  (catColsOf df).filter (fun c => !(headHasValue df c))

def PIE_WORDS : List String := [ "distribution", "breakdown", "percentage", "proportion" ]

def SCATTER_WORDS : List String := [ "correlation", "relationship", "vs", "versus" ]

/-- `AnalyticsService._detect_chart_type`. -/
def detectChartType (df : DataFrame) (question : String) :
    String × Option String × Option String :=
  if 0 < (reclassDateCols df).length ∧ 0 < (numColsOf df).length then
    ( "line", (reclassDateCols df).head?, (numColsOf df).head?)
  else if 1 ≤ (reclassCatCols df).length ∧ 1 ≤ (numColsOf df).length then
    if PIE_WORDS.any (fun w => containsSubstr (pyLower question.data) w.data) then
      ( "pie", (reclassCatCols df).head?, (numColsOf df).head?)
    else
      ( "bar", (reclassCatCols df).head?, (numColsOf df).head?)
  else if 2 ≤ (numColsOf df).length then
    if SCATTER_WORDS.any (fun w => containsSubstr (pyLower question.data) w.data) then
      ( "scatter", (numColsOf df).head?, (numColsOf df)[1]?)
    else
      ( "bar", (numColsOf df).head?, (numColsOf df)[1]?)
  else
    ( "table", none, none)

/-! ## Plotly config (`AnalyticsService._generate_plotly_config`)

The figure is modelled by its observable description: kind, field bindings,
generated title, humanized labels, the (possibly truncated) data frame and
the fixed layout defaults.  On the scalar value domain modelled here the
plotly-express calls and `fig.to_dict()` do not raise, so the `except`
branch returning `None` is not reachable. -/

/-- `str.title()` over ASCII: uppercase a letter after a non-letter,
lowercase a letter after a letter. -/
def titleGo : Bool → List Char → List Char
  | _, [] => []
  | prev, c :: rest =>
    if c.isAlpha then (if prev then c.toLower else c.toUpper) :: titleGo true rest
    else c :: titleGo false rest

def pyTitle (s : String) : String := String.mk (titleGo false s.data)

/-- Python `f"...{x}..."` of an optional string (`None` prints as `None`). -/
def pyOptStr : Option String → String
  | some s2 => s2
  | none => "None"

structure PlotlyConfig where
  kind : String
  x : String
  y : Option String
  title : String
  labels : List (String × String)
  frame : DataFrame
  template : String
  height : Nat
deriving Repr

/-- Python's `not x_col` on an optional column name: truthy-false for both
`None` and the empty string. -/
def pyFalsyStr : Option String → Bool
  | none => true
  | some s2 => s2.isEmpty

/-- `AnalyticsService._generate_plotly_config`.  The guard
`if chart_type == "table" or not x_col` uses Python falsiness, so an
empty-string column name is treated like a missing one. -/
def generatePlotlyConfig (df : DataFrame) (chartType : String)
    (xCol yCol : Option String) (_question : String) : Option PlotlyConfig :=
  if chartType == "table" || pyFalsyStr xCol then none
  else
    match xCol with
    | none => none
    | some xc =>
      let dfL := if 100 < df.rows.length then DataFrame.mk df.columns (df.rows.take 100) else df
      let ys := pyOptStr yCol
      if chartType == "bar" then
        some ⟨ "bar", xc, yCol, s!"{ys} by {xc}",
               [(xc, pyTitle xc), (ys, pyTitle ys)], dfL, "plotly_white", 400⟩
      else if chartType == "line" then
        some ⟨ "line", xc, yCol, s!"{ys} over time",
               [(xc, pyTitle xc), (ys, pyTitle ys)], dfL, "plotly_white", 400⟩
      else if chartType == "pie" then
        some ⟨ "pie", xc, yCol, s!"{ys} Distribution", [], dfL, "plotly_white", 400⟩
      else if chartType == "scatter" then
        some ⟨ "scatter", xc, yCol, s!"{ys} vs {xc}",
               [(xc, pyTitle xc), (ys, pyTitle ys)], dfL, "plotly_white", 400⟩
      else none

/-! ## Statistical summary (`AnalyticsService._generate_summary`) -/

def intVals (cells : List (Option Value)) : List Int :=
  cells.filterMap (fun o => match o with | some (Value.int n) => some n | _ => none)

def insertIntSorted (x : Int) : List Int → List Int
  | [] => [x]
  | y :: ys => if x ≤ y then x :: y :: ys else y :: insertIntSorted x ys

def sortInts : List Int → List Int
  | [] => []
  | x :: xs => insertIntSorted x (sortInts xs)

/-- pandas median of an int column: middle of the sorted values, or the
mean of the two middles (as a float). -/
def medianOf (l : List Int) : Rat :=
  let s := sortInts l
  let n := s.length
  if n = 0 then 0
  else if n % 2 = 1 then ((s.getD (n / 2) 0 : Int) : Rat)
  else (((s.getD (n / 2 - 1) 0 + s.getD (n / 2) 0 : Int) : Rat)) / 2

structure NumStat where
  min : Rat
  max : Rat
  mean : Rat
  median : Rat
  sum : Rat
deriving Repr

/-- `min/max/mean/median/sum` of a numeric column; pandas skips missing
cells.  Numeric columns always hold at least one integer, so the `[]`
branch is unreachable. -/
def numStatOf (cells : List (Option Value)) : NumStat :=
  match intVals cells with
  | [] => ⟨0, 0, 0, 0, 0⟩
  | v :: vs =>
    let s : Int := (v :: vs).foldl (fun a b => a + b) 0
    ⟨((vs.foldl min v : Int) : Rat), ((vs.foldl max v : Int) : Rat),
      (s : Rat) / (((v :: vs).length : Int) : Rat), medianOf (v :: vs), (s : Rat)⟩

/-- pandas sorts the modes ascending; ints compare numerically, strings
lexicographically (a mixed int/string column is unsortable and pandas then
keeps the unsorted order — the int-before-string choice here is one such
order). -/
def valueLe : Value → Value → Bool
  | Value.int a, Value.int b => decide (a ≤ b)
  | Value.str a, Value.str b => decide (a ≤ b)
  | Value.int _, Value.str _ => true
  | Value.str _, Value.int _ => false

def insertValSorted (x : Value) : List Value → List Value
  | [] => [x]
  | y :: ys => if valueLe x y then x :: y :: ys else y :: insertValSorted x ys

def sortVals : List Value → List Value
  | [] => []
  | x :: xs => insertValSorted x (sortVals xs)

def distinctVals (l : List Value) : List Value :=
  l.foldl (fun acc v => if acc.contains v then acc else acc ++ [v]) []

/-- `df[col].mode()`: the most frequent non-missing values, sorted. -/
def modeList (cells : List (Option Value)) : List Value :=
  let vals := cells.filterMap id
  let d := distinctVals vals
  let mx := d.foldl (fun m v => Nat.max m (vals.count v)) 0
  sortVals (d.filter (fun v => vals.count v == mx))

/-- Python `str(...)` of a scalar. -/
def pyStrVal : Value → String
  | Value.int n => toString n
  | Value.str s2 => s2

structure CatStat where
  uniqueValues : Nat
  mostCommon : Option String
deriving Repr

/-- `unique_values` and `most_common` of a categorical column. -/
def catStatOf (cells : List (Option Value)) : CatStat :=
  ⟨(distinctVals (cells.filterMap id)).length,
    match (modeList cells).head? with
    | some v => some (pyStrVal v)
    | none => none⟩

/-- `str(dtype)` of a column: `int64` for all-int, `float64` for int with
missing cells, `object` otherwise. -/
def dtypeStr (df : DataFrame) (c : String) : String :=
  if (colValues df c).all cellInt then "int64"
  else if (colValues df c).any cellInt && (colValues df c).all cellIntOrNull then "float64"
  else "object"

structure StatsSummary where
  totalRows : Nat
  columns : List String
  columnTypes : List (String × String)
  numericStats : Option (List (String × NumStat))
  categoricalStats : Option (List (String × CatStat))
deriving Repr

/-- `AnalyticsService._generate_summary`. -/
def generateSummary (df : DataFrame) : StatsSummary :=
  { totalRows := df.rows.length
    columns := df.columns
    columnTypes := df.columns.map (fun c => (c, dtypeStr df c))
    numericStats :=
      if (numColsOf df).isEmpty then none
      else some ((numColsOf df).map (fun c => (c, numStatOf (colValues df c))))
    categoricalStats :=
      if (catColsOf df).isEmpty then none
      else some ((catColsOf df).map (fun c => (c, catStatOf (colValues df c)))) }

/-! ## Top-level analytics (`AnalyticsService.generate_analytics`) -/

/-- The three shapes of `data_summary`.  The `errorInfo` shape belongs to
the `except` branch of `generate_analytics`, which is unreachable on the
total model. -/
inductive DataSummary where
  | message (m : String)
  | errorInfo (e : String)
  | stats (s : StatsSummary)
deriving Repr

structure AnalyticsResult where
  chartType : String
  plotlyConfig : Option PlotlyConfig
  dataSummary : DataSummary
deriving Repr

/-- `AnalyticsService.generate_analytics`. -/
def generateAnalytics (data : List Row) (question : String) : AnalyticsResult :=
  if data.isEmpty then ⟨ "none", none, DataSummary.message "No data returned"⟩
  else
    match detectChartType (toDF data) question with
    | (ct, x, y) =>
      ⟨ct, generatePlotlyConfig (toDF data) ct x y question,
        DataSummary.stats (generateSummary (toDF data))⟩

/-! ## Text synopsis (`AnalyticsService.generate_text_summary`) -/

/-- Round a rational to the nearest integer, ties to even (the rounding
Python's fixed-point float formatting uses; floats are modelled as exact
rationals here). -/
def roundHalfEven (q : Rat) : Int :=
  let f := q.floor
  let r := q - (f : Rat)
  if r < 1/2 then f
  else if 1/2 < r then f + 1
  else if f % 2 = 0 then f else f + 1

/-- Insert a `,` after every group of three digits, scanning the reversed
digit list. -/
def groupGo : List Char → List Char
  | d1 :: d2 :: d3 :: rest =>
    match rest with
    | [] => [d1, d2, d3]
    | _ :: _ => d1 :: d2 :: d3 :: ',' :: groupGo rest
  | l => l

/-- Thousands separators for a most-significant-first digit list. -/
def groupThousands (ds : List Char) : List Char := (groupGo ds.reverse).reverse

/-- Python `f"{x:,.2f}"`: sign, comma-grouped integer part, exactly two
decimals. -/
def fmtComma2 (q : Rat) : String :=
  let n := roundHalfEven (q * 100)
  let m := n.natAbs
  let sign := if q < 0 then "-" else ""
  let ip := String.mk (groupThousands (Nat.toDigits 10 (m / 100)))
  let fp := (if m % 100 < 10 then "0" else "") ++ toString (m % 100)
  sign ++ ip ++ "." ++ fp

/-- `f"Found {num_rows} result{'s' if num_rows != 1 else ''}."`. -/
def countSentence (n : Nat) : String :=
  s!"Found {n} result" ++ (if n != 1 then "s" else "") ++ "."

/-- `" ".join(parts)`. -/
def pyJoin (sep : String) : List String → String
  | [] => ""
  | p :: ps => ps.foldl (fun acc s2 => acc ++ sep ++ s2) p

/-- `AnalyticsService.generate_text_summary`. -/
def generateTextSummary (data : List Row) (_question : String) : String :=
  if data.isEmpty then "No results found for your question."
  else
    pyJoin " "
      (countSentence (toDF data).rows.length ::
        (((numColsOf (toDF data)).take 2).map (fun c =>
          let vals := intVals (colValues (toDF data) c)
          let total : Int := vals.foldl (fun a b => a + b) 0
          let t := pyTitle c
          let ts := fmtComma2 ((total : Rat))
          let avs := fmtComma2 ((total : Rat) / ((vals.length : Int) : Rat))
          s!"{t}: Total={ts}, Average={avs}") ++
        ((catColsOf (toDF data)).take 1).map (fun c =>
          let top :=
            match (modeList (colValues (toDF data) c)).head? with
            | some v => pyStrVal v
            | none => "N/A"
          s!"Most common {c}: {top}")))

/-! ## Helper lemmas -/

theorem toDF_rows_length (data : List Row) : (toDF data).rows.length = data.length := by
  simp [toDF]

theorem head?_some_of_pos {l : List String} (h : 0 < l.length) : ∃ a, l.head? = some a := by
  cases l with
  | nil => simp at h
  | cons a t => exact ⟨a, rfl⟩

theorem getElem1_some {l : List String} (h : 2 ≤ l.length) : ∃ a, l[1]? = some a := by
  cases l with
  | nil => simp at h
  | cons a t =>
    cases t with
    | nil => simp at h
    | cons b t2 => exact ⟨b, by simp⟩

/-! ## Claims -/

/-- The C1/C2 failing input: two rows whose `category` strings are plainly
not dates, plus a numeric `count`. -/
def exBreakdown : List Row :=
  [ [ ( "category", some (Value.str "potholes") ), ( "count", some (Value.int 5) ) ],
    [ ( "category", some (Value.str "roads") ), ( "count", some (Value.int 3) ) ] ]

/-- A single-column variant for the reclassification claim. -/
def exStatus : List Row :=
  [ [ ( "status", some (Value.str "open") ) ],
    [ ( "status", some (Value.str "closed") ) ] ]

/-- C1: chart-type inference is claimed to reclassify a categorical column
as temporal exactly when its sampled values all parse as dates.  Evaluating
the code's promotion loop on a column whose samples are the non-date
strings `open` / `closed` shows the column is nevertheless moved to the
date columns and removed from the categorical columns: line 76 discards
the `pd.to_datetime` result, and the promotion tests only that the raw
sample has a non-null entry. -/
theorem c1_nondate_column_reclassified_as_temporal :
    reclassDateCols (toDF exStatus) = [ "status" ] ∧ reclassCatCols (toDF exStatus) = [] := by
  constructor <;> rfl

/-- C2: for rows `[{category: potholes, count: 5}, {category: roads,
count: 3}]` and the question `Show breakdown of complaints` the claim
expects `("pie", category, count)`; the code returns `("line", category,
count)` because the non-date `category` column was promoted to a date
column (see C1). -/
theorem c2_breakdown_scenario_returns_line :
    detectChartType (toDF exBreakdown) "Show breakdown of complaints" =
      ( "line", some "category", some "count") ∧
    (detectChartType (toDF exBreakdown) "Show breakdown of complaints").1 ≠ "pie" := by
  constructor
  · rfl
  · decide

/-- C7: on an empty result set `generate_analytics` returns chart type
`none`, a null plotly config, and the plain no-data message instead of
computed statistics. -/
theorem c7_empty_result_set (q : String) :
    generateAnalytics [] q =
      ⟨ "none", none, DataSummary.message "No data returned"⟩ := rfl

/-- C10: the `total_rows` field of the summary equals the number of input
rows, for every row list. -/
theorem c10_total_rows_is_input_length (data : List Row) :
    (generateSummary (toDF data)).totalRows = data.length := by
  simp [generateSummary, toDF_rows_length]

theorem selectCheck_error_shape {l : List Char} {e : VErr}
    (h : selectCheck l = Except.error e) : e = VErr.notSelect := by
  unfold selectCheck at h
  split at h
  · exact absurd h (by simp)
  · exact (Except.error.inj h).symm

theorem categoryCheck_error_shape {l : List Char} {e : VErr}
    (h : categoryCheck l = Except.error e) : ∃ c, e = VErr.badCat c := by
  unfold categoryCheck at h
  split at h
  · exact ⟨_, (Except.error.inj h).symm⟩
  · exact absurd h (by simp)

theorem validateSql_kw_iff (sql : String) (k : String) :
    validateSql sql = Except.error (VErr.kw k) ↔
      DANGEROUS_KEYWORDS.find?
        (fun k2 => containsWholeWord (pyUpper (sqlClean sql)) k2.data) = some k := by
  unfold validateSql keywordCheck
  cases hf : DANGEROUS_KEYWORDS.find?
      (fun k2 => containsWholeWord (pyUpper (sqlClean sql)) k2.data) with
  | some k2 => simp
  | none =>
    simp only []
    constructor
    · intro hk
      exfalso
      cases hs : selectCheck (sqlClean sql) with
      | error e =>
        rw [hs] at hk
        cases selectCheck_error_shape hs
        simp at hk
      | ok u =>
        rw [hs] at hk
        obtain ⟨c, hc⟩ := categoryCheck_error_shape hk
        exact VErr.noConfusion hc
    · intro h
      exact Option.noConfusion h

/-- C3: the validator rejects naming a forbidden keyword exactly when the
comment-stripped, uppercased text contains one of the thirteen dangerous
keywords on whole-word boundaries; a keyword hidden inside a longer
identifier never matches `containsWholeWord` and so never triggers this
rejection. -/
theorem c3_forbidden_keyword_iff (sql : String) :
    (∃ k, validateSql sql = Except.error (VErr.kw k) ∧ k ∈ DANGEROUS_KEYWORDS) ↔
      (∃ k ∈ DANGEROUS_KEYWORDS, containsWholeWord (pyUpper (sqlClean sql)) k.data = true) := by
  constructor
  · rintro ⟨k, hk, hkmem⟩
    have hf := (validateSql_kw_iff sql k).mp hk
    exact ⟨k, hkmem, by simpa using List.find?_some hf⟩
  · rintro ⟨k, hkmem, hkp⟩
    cases hf : DANGEROUS_KEYWORDS.find?
        (fun k2 => containsWholeWord (pyUpper (sqlClean sql)) k2.data) with
    | none => exact absurd hkp (List.find?_eq_none.mp hf k hkmem)
    | some k2 =>
      exact ⟨k2, (validateSql_kw_iff sql k2).mpr hf, List.mem_of_find?_eq_some hf⟩

/-- C4: any SQL text whose comment-stripped, trimmed form does not begin
case-insensitively with `SELECT` is rejected by the validator (either by
the keyword scan or by the SELECT-prefix check that follows it). -/
theorem c4_nonselect_rejected (sql : String)
    (h : listStartsWith (pyUpper (pyStrip (sqlClean sql))) selectKW = false) :
    ∃ e, validateSql sql = Except.error e := by
  unfold validateSql
  cases hk : keywordCheck (sqlClean sql) with
  | error e => exact ⟨e, rfl⟩
  | ok u =>
    cases u
    simp only [selectCheck, h]
    exact ⟨VErr.notSelect, rfl⟩

/-- A non-SELECT statement with no dangerous keyword in it. -/
def ctePrefixedSql : String := "WITH x AS (SELECT 1) SELECT * FROM x"

/-- Witness for C4 at a concrete input. -/
theorem c4_witness :
    listStartsWith (pyUpper (pyStrip (sqlClean ctePrefixedSql))) selectKW = false ∧
      ∃ e, validateSql ctePrefixedSql = Except.error e :=
  ⟨by decide, c4_nonselect_rejected ctePrefixedSql (by decide)⟩

/-- C5: the category check errors (naming a literal) exactly when some
literal extracted from a `category = '<value>'` filter is outside
`ALLOWED_CATEGORIES`, and passes exactly when every extracted literal is
allow-listed. -/
theorem c5_category_allowlist (sql : String) :
    ((∃ c, categoryCheck (sqlClean sql) = Except.error (VErr.badCat c)) ↔
      ∃ c ∈ extractCategories (sqlClean sql), c ∉ ALLOWED_CATEGORIES) ∧
    (categoryCheck (sqlClean sql) = Except.ok () ↔
      ∀ c ∈ extractCategories (sqlClean sql), c ∈ ALLOWED_CATEGORIES) := by
  unfold categoryCheck
  cases hf : (extractCategories (sqlClean sql)).find?
      (fun c => !(ALLOWED_CATEGORIES.contains c)) with
  | some c =>
    have hc : c ∉ ALLOWED_CATEGORIES := by simpa using List.find?_some hf
    have hm : c ∈ extractCategories (sqlClean sql) := List.mem_of_find?_eq_some hf
    simp only [hf]
    constructor
    · exact iff_of_true ⟨c, rfl⟩ ⟨c, hm, hc⟩
    · exact iff_of_false (by simp) (fun hall => hc (hall c hm))
  | none =>
    have hall : ∀ c ∈ extractCategories (sqlClean sql), c ∈ ALLOWED_CATEGORIES := by
      intro c hcm
      have := List.find?_eq_none.mp hf c hcm
      simpa using this
    simp only [hf]
    constructor
    · constructor
      · rintro ⟨c, hc⟩
        exact absurd hc (by simp)
      · rintro ⟨c, hcm, hc⟩
        exact absurd (hall c hcm) hc
    · exact iff_of_true (by simp) hall

/-- C8: `execute_query` runs `_validate_sql` before building the RPC
payload; whenever validation fails, the method raises that error and no
query string is handed to the remote `execute_sql` procedure. -/
theorem c8_validation_precedes_rpc (sql : String) (e : VErr)
    (h : validateSql sql = Except.error e) : executeQueryRequest sql = Except.error e := by
  unfold executeQueryRequest
  rw [h]

def dropTableSql : String := "DROP TABLE issue_analytics"

def kwDropStr : String := "DROP"

/-- Witness for C8 at a concrete input. -/
theorem c8_witness :
    validateSql dropTableSql = Except.error (VErr.kw kwDropStr) ∧
      executeQueryRequest dropTableSql = Except.error (VErr.kw kwDropStr) :=
  ⟨by rfl, c8_validation_precedes_rpc dropTableSql (VErr.kw kwDropStr) (by rfl)⟩

theorem detect_cases (df : DataFrame) (q : String) :
    detectChartType df q = ( "table", none, none) ∨
      ∃ ct a b, detectChartType df q = (ct, some a, some b) ∧
        (ct = "line" ∨ ct = "pie" ∨ ct = "bar" ∨ ct = "scatter") := by
  unfold detectChartType
  split_ifs with h1 h2 h3 h4 h5
  · obtain ⟨a, ha⟩ := head?_some_of_pos h1.1
    obtain ⟨b, hb⟩ := head?_some_of_pos h1.2
    refine Or.inr ⟨ "line", a, b, ?_, Or.inl rfl⟩
    rw [ha, hb]
  · obtain ⟨a, ha⟩ := head?_some_of_pos h2.1
    obtain ⟨b, hb⟩ := head?_some_of_pos h2.2
    refine Or.inr ⟨ "pie", a, b, ?_, Or.inr (Or.inl rfl)⟩
    rw [ha, hb]
  · obtain ⟨a, ha⟩ := head?_some_of_pos h2.1
    obtain ⟨b, hb⟩ := head?_some_of_pos h2.2
    refine Or.inr ⟨ "bar", a, b, ?_, Or.inr (Or.inr (Or.inl rfl))⟩
    rw [ha, hb]
  · obtain ⟨a, ha⟩ := head?_some_of_pos (by omega : 0 < (numColsOf df).length)
    obtain ⟨b, hb⟩ := getElem1_some h4
    refine Or.inr ⟨ "scatter", a, b, ?_, Or.inr (Or.inr (Or.inr rfl))⟩
    rw [ha, hb]
  · obtain ⟨a, ha⟩ := head?_some_of_pos (by omega : 0 < (numColsOf df).length)
    obtain ⟨b, hb⟩ := getElem1_some h4
    refine Or.inr ⟨ "bar", a, b, ?_, Or.inr (Or.inr (Or.inl rfl))⟩
    rw [ha, hb]
  · exact Or.inl rfl

theorem plotly_some_of_kind (df : DataFrame) (a : String) (y : Option String) (q : String)
    (ct : String) (h : ct = "line" ∨ ct = "pie" ∨ ct = "bar" ∨ ct = "scatter")
    (ha : a.isEmpty = false) :
    (generatePlotlyConfig df ct (some a) y q).isSome = true := by
  rcases h with rfl | rfl | rfl | rfl <;> simp [generatePlotlyConfig, pyFalsyStr, ha]

theorem plotly_none_of_empty (df : DataFrame) (ct : String) (y : Option String) (q : String) :
    generatePlotlyConfig df ct (some "") y q = none := by
  have hp : pyFalsyStr (some "") = true := rfl
  unfold generatePlotlyConfig
  rw [hp, Bool.or_true]
  rfl

theorem generateAnalytics_cons (d : Row) (ds : List Row) (q : String) (ct : String)
    (x y : Option String) (h : detectChartType (toDF (d :: ds)) q = (ct, x, y)) :
    generateAnalytics (d :: ds) q =
      ⟨ct, generatePlotlyConfig (toDF (d :: ds)) ct x y q,
        DataSummary.stats (generateSummary (toDF (d :: ds)))⟩ := by
  unfold generateAnalytics
  rw [h]
  simp

/-- A non-empty row set whose only non-numeric column is named by the empty
string. -/
def exEmptyColName : List Row :=
  [ [ ( "", some (Value.str "x") ), ( "n", some (Value.int 1) ) ] ]

/-- C6 counterexample: at `[{"": "x", "n": 1}]` the code picks chart type
`line` with x column `""` (promoted by the C1 bug), and the guard
`chart_type == "table" or not x_col` then returns a null config because an
empty-string column name is falsy — so the config is absent although the
chart type is not in `{table, none, error}` and the data is non-empty, and
the claimed invariant fails as stated. -/
theorem c6_claim_counterexample :
    ¬ (((generateAnalytics exEmptyColName "q").plotlyConfig.isSome = true) ↔
        ((generateAnalytics exEmptyColName "q").chartType ∉
            ([ "table", "none", "error" ] : List String) ∧
          exEmptyColName ≠ [])) := by
  decide

/-- C6 amended: the plotly render config is present exactly when the chosen
chart type is none of `table`, `none`, `error`, the result set is
non-empty, and the x column chosen by chart inference is present and not
the empty string (the code's `not x_col` guard treats an empty-string
column name like a missing one). -/
theorem c6_render_config_iff_amended (data : List Row) (q : String) :
    ((generateAnalytics data q).plotlyConfig.isSome = true) ↔
      ((generateAnalytics data q).chartType ∉ ([ "table", "none", "error" ] : List String) ∧
        data ≠ [] ∧
        ∃ a, (detectChartType (toDF data) q).2.1 = some a ∧ a ≠ "") := by
  cases data with
  | nil => simp [generateAnalytics]
  | cons d ds =>
    rcases detect_cases (toDF (d :: ds)) q with h | ⟨ct, a, b, h, hct⟩
    · rw [generateAnalytics_cons d ds q _ _ _ h]
      refine iff_of_false ?_ ?_
      · rw [show generatePlotlyConfig (toDF (d :: ds)) "table" none none q = none from rfl]
        simp
      · rintro ⟨hmem, -⟩
        exact hmem (by simp)
    · rw [generateAnalytics_cons d ds q _ _ _ h]
      by_cases ha : a = ""
      · subst ha
        refine iff_of_false ?_ ?_
        · rw [plotly_none_of_empty]
          simp
        · rintro ⟨-, -, a2, ha2, hne⟩
          rw [h] at ha2
          exact hne (Option.some.inj ha2).symm
      · have hae : a.isEmpty = false := by
          cases he : a.isEmpty
          · rfl
          · exact absurd ((String.isEmpty_iff a).mp he) ha
        refine iff_of_true (plotly_some_of_kind (toDF (d :: ds)) a (some b) q ct hct hae)
          ⟨?_, by simp, a, by rw [h], ha⟩
        rcases hct with rfl | rfl | rfl | rfl <;> simp

theorem foldl_append_acc (sep : String) (ps : List String) (acc : String) :
    ∃ r, ps.foldl (fun a s2 => a ++ sep ++ s2) acc = acc ++ r := by
  induction ps generalizing acc with
  | nil => exact ⟨ "", by simp [String.append_empty]⟩
  | cons s2 ps ih =>
    obtain ⟨r, hr⟩ := ih (acc ++ sep ++ s2)
    refine ⟨sep ++ s2 ++ r, ?_⟩
    rw [List.foldl_cons, hr, String.append_assoc, String.append_assoc, String.append_assoc]

theorem pyJoin_cons (sep p : String) (ps : List String) :
    ∃ r, pyJoin sep (p :: ps) = p ++ r :=
  foldl_append_acc sep ps p

/-- C9: the text synopsis is the fixed no-results string on an empty row
list, and on a non-empty row list of length N it begins with the row-count
sentence, which reads `Found 1 result.` exactly when N = 1 and
`Found N results.` otherwise. -/
theorem c9_narrate (data : List Row) (q : String) :
    (data = [] → generateTextSummary data q = "No results found for your question.") ∧
    (data ≠ [] → ∃ r, generateTextSummary data q = countSentence data.length ++ r) ∧
    (∀ n : Nat, countSentence n =
      "Found " ++ toString n ++ (if n = 1 then " result." else " results.")) := by
  refine ⟨?_, ?_, ?_⟩
  · intro h
    subst h
    rfl
  · intro h
    obtain ⟨d, ds, rfl⟩ := List.exists_cons_of_ne_nil h
    unfold generateTextSummary
    rw [toDF_rows_length]
    simp only [List.isEmpty_cons, Bool.false_eq_true, if_false]
    exact pyJoin_cons _ _ _
  · intro n
    by_cases h : n = 1
    · subst h
      rfl
    · have hb : (n != 1) = true := by simp [h]
      unfold countSentence
      simp only [hb, if_true, if_neg h]
      rw [String.append_assoc, String.append_assoc]
      rfl

def exOneRow : List Row := [ [ ( "count", some (Value.int 5) ) ] ]

/-- Witness for C9 at concrete inputs. -/
theorem c9_witness :
    generateTextSummary [] "q1" = "No results found for your question." ∧
      ∃ r, generateTextSummary exOneRow "q1" = countSentence 1 ++ r := by
  constructor
  · exact (c9_narrate [] "q1").1 rfl
  · exact (c9_narrate exOneRow "q1").2.1 (by simp [exOneRow])

end CivicOne
